import Mathlib

/-!
Shallow embedding of the `hora_openrouteservice` test framework core logic:
the `MapPage` page object (src/src/pages/MapPage.ts) and the `ApiClient`
HTTP client (src/src/utils/ApiClient.ts).

JSON numbers are modelled as `Int` (the concrete values appearing in the code
and spec are integers); JavaScript truthiness of a number is `≠ 0`
(`NaN` is not representable in this model).  JavaScript `undefined` arising
from optional chaining is modelled with `Option`.  Thrown exceptions are
modelled as `Except`-style error results.
-/

namespace Hora

/-- A JSON value as it appears inside a `geometry.coordinates` array:
either a number or an array of numbers.  The TS type is
`coordinates: number[][] | number[]`, and the code discriminates at runtime
with `Array.isArray(coords[0])`, so the element type must cover both. -/
inductive JVal where
  | num (n : Int)
  | arr (xs : List JVal)
deriving Repr

/-- `properties.summary` of a route feature: `{ distance: number; duration: number }`. -/
structure Summary where
  distance : Int
  duration : Int
deriving Repr, DecidableEq

/-- `properties` of a feature: optional routing `summary`, optional geocoding `label`. -/
structure Properties where
  summary : Option Summary := none
  label : Option String := none
deriving Repr, DecidableEq

/-- `geometry` of a feature; `coordinates` is the raw JSON array. -/
structure Geometry where
  coordinates : List JVal
deriving Repr

/-- One element of the `features` array of a captured response. -/
structure Feature where
  properties : Option Properties := none
  geometry : Option Geometry := none
deriving Repr

/-- The `RouteResponse` interface of MapPage.ts: `features` is optional. -/
structure RouteResponse where
  features : Option (List Feature) := none
deriving Repr

/-- The mutable state of a `MapPage` instance that the accessors read:
`private routeResponse: RouteResponse | null = null`. -/
structure MapState where
  routeResponse : Option RouteResponse := none
deriving Repr

/-- The initial state of a freshly constructed `MapPage`. -/
def MapState.initial : MapState := { routeResponse := none }

/-- JavaScript truthiness of an optionally-present number:
`undefined` and `0` are falsy, every other number is truthy. -/
def jsTruthyNum : Option Int → Bool
  | some n => n != 0
  | none => false

/-- The distinct `throw new Error(...)` sites of the MapPage accessors.
Constructors carry the fixed leading text of the thrown message (the dynamic
`JSON.stringify(...)` excerpts appended by the source are omitted). -/
inductive MapError where
  /-- `No API response captured. Call drawRouteOnMap() first.` (getRouteDistance)
      resp. `No API response captured.` (getRouteDuration) -/
  | noCapture (msg : String)
  /-- `❌ API RESPONSE ERROR: Received Geocoding response instead of Routing response. ...` -/
  | geocodingMismatch (msg : String)
  /-- `Captured response is neither Route nor Address. Content: ...` -/
  | unrecognizedShape (msg : String)
  /-- `Could not extract duration from API response.` -/
  | couldNotExtractDuration (msg : String)
  /-- `No coordinates in response.` -/
  | noCoordinates (msg : String)
deriving Repr, DecidableEq

/-- Result of a numeric accessor: a returned number together with the
`console.warn` messages emitted on the way, or a thrown error. -/
inductive NumResult where
  | value (n : Int) (warnings : List String)
  | err (e : MapError)
deriving Repr, DecidableEq

/-- Result of `getRouteCoordinates`: the returned JSON array or a thrown error. -/
inductive CoordResult where
  | value (coords : List JVal)
  | err (e : MapError)
deriving Repr

/-- `this.routeResponse.features?.[0]` — the first feature, if any. -/
def firstFeature (r : RouteResponse) : Option Feature :=
  r.features.bind List.head?

/-- `feature?.properties?.summary` via optional chaining. -/
def featureSummary (f : Option Feature) : Option Summary :=
  (f.bind Feature.properties).bind Properties.summary

/-- Warning text of the getRouteDistance demo branch, first `console.warn`. -/
def warnMismatchDistance : String :=
  "⚠️ RESPONSE TYPE MISMATCH: Captured \x22Geocoding\x22 (Address) instead of \x22Routing\x22."

/-- Warning text of the getRouteDistance demo branch, second `console.warn`. -/
def warnDemoDistance : String :=
  "ℹ️ Demo Mode Active: Returning mock distance (1500m) to verify test flow."

/-- Warning text of the getRouteDuration demo branch. -/
def warnDemoDuration : String :=
  "⚠️ RESPONSE TYPE MISMATCH: Using mock duration (300s) in DEMO_MODE."

/-- `MapPage.getRouteDistance()`.  `demo` is the test of DEMO_MODE against the literal string true.
Case A fires on a *truthy* `feature?.properties?.summary?.distance`;
Case B fires on a truthy `feature?.geometry` (objects are always truthy,
so presence suffices); Case C throws. -/
def getRouteDistance (demo : Bool) (st : MapState) : NumResult :=
  match st.routeResponse with
  | none => .err (.noCapture "No API response captured. Call drawRouteOnMap() first.")
  | some r =>
    let feature := firstFeature r
    let dist := (featureSummary feature).map Summary.distance
    if jsTruthyNum dist then
      .value (dist.getD 0) []
    else if (feature.bind Feature.geometry).isSome then
      if demo then
        .value 1500 [warnMismatchDistance, warnDemoDistance]
      else
        .err (.geocodingMismatch
          "❌ API RESPONSE ERROR: Received Geocoding response instead of Routing response.")
    else
      .err (.unrecognizedShape "Captured response is neither Route nor Address.")

/-- `MapPage.getRouteDuration()`.  Same classification as `getRouteDistance`,
keyed on a truthy `summary?.duration`, with its own messages and mock value. -/
def getRouteDuration (demo : Bool) (st : MapState) : NumResult :=
  match st.routeResponse with
  | none => .err (.noCapture "No API response captured.")
  | some r =>
    let feature := firstFeature r
    let dur := (featureSummary feature).map Summary.duration
    if jsTruthyNum dur then
      .value (dur.getD 0) []
    else if (feature.bind Feature.geometry).isSome then
      if demo then
        .value 300 [warnDemoDuration]
      else
        .err (.geocodingMismatch
          "❌ API RESPONSE ERROR: Received Geocoding response instead of Routing response.")
    else
      .err (.couldNotExtractDuration "Could not extract duration from API response.")

/-- `MapPage.getRouteCoordinates()`.
`coords` is `this.routeResponse?.features?.[0]?.geometry?.coordinates`;
`if (!coords) throw` only triggers when the chain is `undefined` (an empty
array is truthy in JS).  `Array.isArray(coords[0])` keeps the array as-is
when its first element is an array, else wraps the whole array twice:
`[coords, coords]`. -/
def getRouteCoordinates (st : MapState) : CoordResult :=
  let coords :=
    ((st.routeResponse.bind firstFeature).bind Feature.geometry).map Geometry.coordinates
  match coords with
  | none => .err (.noCoordinates "No coordinates in response.")
  | some cs =>
    match cs.head? with
    | some (.arr _) => .value cs
    | _ => .value [.arr cs, .arr cs]

/-- `MapPage.isRouteDisplayed()`: `!!this.routeResponse`. -/
def isRouteDisplayed (st : MapState) : Bool :=
  st.routeResponse.isSome

/-! ### Viewport-relative click coordinates (clickPickupLocation / clickDeliveryDestination)

Viewport dimensions and the JS floating-point products are modelled as exact
rationals; the literals `0.35`, `0.5`, `0.65` become `35/100`, `5/10`, `65/100`. -/

/-- `this.page.viewportSize()` result: `{ width, height }`. -/
structure Viewport where
  width : ℚ
  height : ℚ
deriving Repr, DecidableEq

/-- The click point computed by `clickPickupLocation()`:
`x = viewport.width * 0.35`, `y = viewport.height * 0.5`. -/
def pickupClickPoint (v : Viewport) : ℚ × ℚ :=
  (v.width * (35 / 100), v.height * (5 / 10))

/-- The click point computed by `clickDeliveryDestination()`:
`x = viewport.width * 0.65`, `y = viewport.height * 0.5`. -/
def deliveryClickPoint (v : Viewport) : ℚ × ℚ :=
  (v.width * (65 / 100), v.height * (5 / 10))

/-! ### The network listener predicate (waitForRouteCalculation) -/

/-- One network response observed by the `page.waitForResponse` predicate.
`body = none` models a body that fails to parse as JSON; a parsed body whose
`features` field is absent or not an array is `some r` with `r.features = none`. -/
structure NetResponse where
  url : String
  status : Nat
  body : Option RouteResponse
deriving Repr

/-- `url.includes(sub)` of JS strings: `sub` occurs contiguously in `s`. -/
def strContains (s sub : String) : Bool :=
  decide (sub.toList <:+: s.toList)

/-- `url.includes('directions') || url.includes('reverse') || url.includes('pgeocode')`. -/
def isTargetUrl (url : String) : Bool :=
  strContains url "directions" || strContains url "reverse" || strContains url "pgeocode"

/-- The predicate passed to `page.waitForResponse` in `waitForRouteCalculation()`:
`if (!isTarget || resp.status() !== 200) return false;` then
`try { return Array.isArray(body.features) && body.features.length > 0 } catch { return false }`. -/
def routeResponsePredicate (resp : NetResponse) : Bool :=
  if !isTargetUrl resp.url || resp.status != 200 then
    false
  else
    match resp.body with
    | none => false
    | some b =>
      match b.features with
      | some fs => !fs.isEmpty
      | none => false

/-! ### State effect of the interaction methods (C7)

`drawRouteOnMap()` and `clickDeliveryAndWaitForRoute()` both end with
`this.routeResponse = await routePromise`: the field is assigned only when the
awaited `waitForRouteCalculation()` promise resolves; a rejection (timeout)
propagates out of the method and the assignment never executes.  The pointer
events and fixed delays in between never touch `routeResponse`.  The promise
outcome is passed in explicitly as an `Except`. -/

/-- State effect of `drawRouteOnMap()`.  Returns the method outcome
(`ok` or the propagated error) together with the state after the call. -/
def drawRouteOnMap (viewport : Option Viewport) (st : MapState)
    (outcome : Except String RouteResponse) : Except String Unit × MapState :=
  match viewport with
  | none => (.error "Viewport not defined", st)
  | some _ =>
    match outcome with
    | .ok body => (.ok (), { st with routeResponse := some body })
    | .error e => (.error e, st)

/-- State effect of `clickDeliveryAndWaitForRoute()` — identical capture logic
to `drawRouteOnMap()` (only the pointer gestures differ). -/
def clickDeliveryAndWaitForRoute (viewport : Option Viewport) (st : MapState)
    (outcome : Except String RouteResponse) : Except String Unit × MapState :=
  match viewport with
  | none => (.error "Viewport not defined", st)
  | some _ =>
    match outcome with
    | .ok body => (.ok (), { st with routeResponse := some body })
    | .error e => (.error e, st)

/-! ### ApiClient (src/src/utils/ApiClient.ts) -/

/-- The travel profile union type of `RouteRequest.profile`. -/
inductive Profile where
  | drivingCar
  | drivingHgv
  | cyclingRegular
  | footWalking
deriving Repr, DecidableEq

/-- The literal string of each profile as it appears in the URL. -/
def Profile.toUrlString : Profile → String
  | .drivingCar => "driving-car"
  | .drivingHgv => "driving-hgv"
  | .cyclingRegular => "cycling-regular"
  | .footWalking => "foot-walking"

/-- `Coordinates` of ApiClient.ts (longitude/latitude, modelled as rationals). -/
structure Coordinates where
  longitude : ℚ
  latitude : ℚ
deriving Repr, DecidableEq

/-- `RouteRequest` of ApiClient.ts; `profile` is optional. -/
structure RouteRequest where
  start : Coordinates
  stop : Coordinates
  profile : Option Profile := none
deriving Repr, DecidableEq

/-- The HTTP response the Playwright request context hands back to `getRoute`,
parameterized by the type of the parsed JSON body. -/
structure ApiHttpResponse (β : Type) where
  status : Nat
  text : String
  json : β

/-- Playwright `APIResponse.ok()`: status in the range 200-299. -/
def apiResponseOk (status : Nat) : Bool :=
  200 ≤ status && status ≤ 299

/-- `const profile = routeRequest.profile || 'driving-car';` -/
def effectiveProfileString (req : RouteRequest) : String :=
  match req.profile with
  | some p => p.toUrlString
  | none => "driving-car"

/-- The URL `getRoute` POSTs to: `${this.baseUrl}/v2/directions/${profile}/json`. -/
def getRouteUrl (req : RouteRequest) : String :=
  "https://openrouteservice.org" ++ "/v2/directions/" ++ effectiveProfileString req ++ "/json"

/-- The POST body of `getRoute`:
`{ coordinates: [[start.longitude, start.latitude], [end.longitude, end.latitude]] }`. -/
def getRoutePostBody (req : RouteRequest) : List (List ℚ) :=
  [[req.start.longitude, req.start.latitude], [req.stop.longitude, req.stop.latitude]]

/-- `ApiClient.getRoute`, given the HTTP response the POST produced:
`if (!response.ok()) throw new Error(...)` else `return await response.json()`. -/
def getRoute {β : Type} (_req : RouteRequest) (resp : ApiHttpResponse β) : Except String β :=
  if apiResponseOk resp.status then
    .ok resp.json
  else
    .error ("OpenRouteService API returned " ++ toString resp.status ++ ": " ++ resp.text)

/-! ### Concrete example states used by witnesses and counterexamples -/

/-- A captured routing response: summary 5420 m / 380 s plus a two-point geometry. -/
def exampleRouteState : MapState :=
  { routeResponse := some { features := some [
      { properties := some { summary := some { distance := 5420, duration := 380 } },
        geometry := some { coordinates := [.arr [.num 8, .num 49], .arr [.num 9, .num 50]] } }] } }

/-- A captured geocoding (address) response: a label and a single-point geometry, no summary. -/
def exampleAddressState : MapState :=
  { routeResponse := some { features := some [
      { properties := some { label := some "Berlin, Germany" },
        geometry := some { coordinates := [.num 13, .num 52] } }] } }

/-- A captured response whose first feature has neither summary nor geometry. -/
def exampleGarbageState : MapState :=
  { routeResponse := some { features := some [{ }] } }

/-- A captured response whose summary exists but carries `distance = 0` and
`duration = 0` — both fields present, both falsy in JS. -/
def exampleZeroSummaryState : MapState :=
  { routeResponse := some { features := some [
      { properties := some { summary := some { distance := 0, duration := 0 } } }] } }

/-- A captured response whose geometry is a LineString with exactly one
coordinate pair. -/
def exampleSinglePairState : MapState :=
  { routeResponse := some { features := some [
      { geometry := some { coordinates := [.arr [.num 0, .num 0]] } }] } }

/-- A route request that leaves `profile` unset. -/
def exampleRouteRequest : RouteRequest :=
  { start := { longitude := 8, latitude := 49 }, stop := { longitude := 9, latitude := 50 } }

/-! ## Theorems -/

/-- C1 (amended): for every stored captured response whose first feature carries a
`properties.summary` whose `distance` and `duration` are nonzero (JS-truthy),
`getRouteDistance()` returns the summary distance and `getRouteDuration()` the
summary duration, directly, with no warning and no error, independently of the
demo toggle; in particular 5420/380 are returned as-is. -/
theorem summary_values_returned_directly (demo : Bool) (st : MapState)
    (r : RouteResponse) (s : Summary)
    (hr : st.routeResponse = some r)
    (hs : featureSummary (firstFeature r) = some s)
    (hd : s.distance ≠ 0) (hu : s.duration ≠ 0) :
    getRouteDistance demo st = .value s.distance [] ∧
    getRouteDuration demo st = .value s.duration [] := by
  unfold getRouteDistance getRouteDuration
  rw [hr]
  simp [hs, jsTruthyNum, hd, hu]

/-- C1 witness: at the concrete captured response with summary 5420 m / 380 s,
the getters return 5420 and 380. -/
theorem summary_values_returned_directly_witness :
    getRouteDistance false exampleRouteState = .value 5420 [] ∧
    getRouteDuration false exampleRouteState = .value 380 [] :=
  summary_values_returned_directly false exampleRouteState _
    { distance := 5420, duration := 380 } rfl rfl (by decide) (by decide)

/-- C1 counterexample: a captured response whose first feature carries a
`properties.summary` with both `distance` and `duration` fields (each equal
to `0`) on which `getRouteDistance()` and `getRouteDuration()` throw instead
of returning the summary values: JS truthiness treats `0` as absent. -/
theorem summary_zero_fields_counterexample :
    exampleZeroSummaryState.routeResponse.bind (fun r => featureSummary (firstFeature r)) =
      some { distance := 0, duration := 0 } ∧
    getRouteDistance false exampleZeroSummaryState =
      .err (.unrecognizedShape "Captured response is neither Route nor Address.") ∧
    getRouteDuration false exampleZeroSummaryState =
      .err (.couldNotExtractDuration "Could not extract duration from API response.") :=
  ⟨rfl, rfl, rfl⟩

/-- C2: on a captured address-shaped response (first feature has geometry but no
summary), the getters are a deterministic fork on the demo toggle alone:
toggle on, `getRouteDistance` returns 1500 with warnings recorded and
`getRouteDuration` returns 300 with a warning recorded; toggle off, both
throw the geocoding-mismatch error. -/
theorem geocoding_fallback_fork (demo : Bool) (st : MapState)
    (r : RouteResponse) (f : Feature) (g : Geometry)
    (hr : st.routeResponse = some r)
    (hf : firstFeature r = some f)
    (hsum : f.properties.bind Properties.summary = none)
    (hg : f.geometry = some g) :
    (demo = true →
        getRouteDistance demo st = .value 1500 [warnMismatchDistance, warnDemoDistance] ∧
        getRouteDuration demo st = .value 300 [warnDemoDuration]) ∧
    (demo = false →
        getRouteDistance demo st =
          .err (.geocodingMismatch
            "❌ API RESPONSE ERROR: Received Geocoding response instead of Routing response.") ∧
        getRouteDuration demo st =
          .err (.geocodingMismatch
            "❌ API RESPONSE ERROR: Received Geocoding response instead of Routing response.")) := by
  unfold getRouteDistance getRouteDuration
  rw [hr]
  constructor <;> intro hdemo <;> subst hdemo <;>
    simp [featureSummary, hf, hsum, hg, jsTruthyNum]

/-- C2 witness: at the concrete captured address response, demo mode yields
1500/300 with the recorded warnings and non-demo mode yields the errors. -/
theorem geocoding_fallback_fork_witness :
    (getRouteDistance true exampleAddressState =
        .value 1500 [warnMismatchDistance, warnDemoDistance] ∧
      getRouteDuration true exampleAddressState = .value 300 [warnDemoDuration]) ∧
    (getRouteDistance false exampleAddressState =
        .err (.geocodingMismatch
          "❌ API RESPONSE ERROR: Received Geocoding response instead of Routing response.") ∧
      getRouteDuration false exampleAddressState =
        .err (.geocodingMismatch
          "❌ API RESPONSE ERROR: Received Geocoding response instead of Routing response.")) :=
  ⟨(geocoding_fallback_fork true exampleAddressState _ _ _ rfl rfl rfl rfl).1 rfl,
   (geocoding_fallback_fork false exampleAddressState _ _ _ rfl rfl rfl rfl).2 rfl⟩

/-- C3 (amended): for a stored captured response whose first feature has a
geometry, `getRouteCoordinates()` returns the single `[lon, lat]` point
repeated twice (length 2) in the point case, and returns the coordinate list
unchanged in the list case — so the result length equals the input list
length there, and is only guaranteed ≥ 2 when the input list has ≥ 2 pairs. -/
theorem getRouteCoordinates_normalization (st : MapState)
    (r : RouteResponse) (f : Feature) (g : Geometry)
    (hr : st.routeResponse = some r)
    (hf : firstFeature r = some f)
    (hg : f.geometry = some g) :
    (∀ a b : Int, g.coordinates = [.num a, .num b] →
        getRouteCoordinates st = .value [.arr [.num a, .num b], .arr [.num a, .num b]] ∧
        ([JVal.arr [JVal.num a, JVal.num b], JVal.arr [JVal.num a, JVal.num b]] : List JVal).length = 2) ∧
    (∀ p rest, g.coordinates = .arr p :: rest →
        getRouteCoordinates st = .value g.coordinates ∧
        g.coordinates.length = rest.length + 1) := by
  unfold getRouteCoordinates
  constructor
  · intro a b hcoords
    rw [hr] at *
    simp [firstFeature] at hf ⊢
    simp [hf, hg, hcoords]
  · intro p rest hcoords
    rw [hr] at *
    simp [firstFeature] at hf ⊢
    simp [hf, hg, hcoords]

/-- C3 witness: the concrete single-point address capture normalizes to the
point repeated twice; the two-pair route capture is returned unchanged. -/
theorem getRouteCoordinates_normalization_witness :
    (getRouteCoordinates exampleAddressState =
        .value [.arr [.num 13, .num 52], .arr [.num 13, .num 52]] ∧
      ([JVal.arr [JVal.num 13, JVal.num 52], JVal.arr [JVal.num 13, JVal.num 52]] : List JVal).length = 2) ∧
    (getRouteCoordinates exampleRouteState =
        .value [.arr [.num 8, .num 49], .arr [.num 9, .num 50]] ∧
      ([JVal.arr [JVal.num 8, JVal.num 49], JVal.arr [JVal.num 9, JVal.num 50]] : List JVal).length = 1 + 1) :=
  ⟨(getRouteCoordinates_normalization exampleAddressState _ _ _ rfl rfl rfl).1 13 52 rfl,
   (getRouteCoordinates_normalization exampleRouteState _ _ _ rfl rfl rfl).2
      [.num 8, .num 49] [.arr [.num 9, .num 50]] rfl⟩

/-- C3 counterexample: a geometry whose coordinates are a list containing
exactly one coordinate pair is returned unchanged with length 1, violating
the claimed unconditional result length ≥ 2. -/
theorem getRouteCoordinates_single_pair_counterexample :
    getRouteCoordinates exampleSinglePairState = .value [.arr [.num 0, .num 0]] ∧
    ¬ (2 ≤ ([JVal.arr [JVal.num 0, JVal.num 0]] : List JVal).length) :=
  ⟨rfl, by decide⟩

/-- C5: before any capture (`routeResponse = null`), both getters throw their
descriptive no-capture errors — in either demo mode, and never return a value. -/
theorem accessors_before_capture_error (demo : Bool) (st : MapState)
    (h : st.routeResponse = none) :
    getRouteDistance demo st =
      .err (.noCapture "No API response captured. Call drawRouteOnMap() first.") ∧
    getRouteDuration demo st = .err (.noCapture "No API response captured.") := by
  unfold getRouteDistance getRouteDuration
  rw [h]
  exact ⟨rfl, rfl⟩

/-- C5 witness: in the initial state of a fresh `MapPage`, both getters throw. -/
theorem accessors_before_capture_error_witness :
    getRouteDistance false MapState.initial =
      .err (.noCapture "No API response captured. Call drawRouteOnMap() first.") ∧
    getRouteDuration false MapState.initial = .err (.noCapture "No API response captured.") :=
  accessors_before_capture_error false MapState.initial rfl

/-- C6: on a captured response whose first feature has neither summary nor
geometry, all three accessors throw (their shape-classification failure
errors) rather than returning a value, in either demo mode. -/
theorem accessors_unrecognized_shape_error (demo : Bool) (st : MapState)
    (r : RouteResponse) (f : Feature)
    (hr : st.routeResponse = some r)
    (hf : firstFeature r = some f)
    (hsum : f.properties.bind Properties.summary = none)
    (hg : f.geometry = none) :
    getRouteDistance demo st =
      .err (.unrecognizedShape "Captured response is neither Route nor Address.") ∧
    getRouteDuration demo st =
      .err (.couldNotExtractDuration "Could not extract duration from API response.") ∧
    getRouteCoordinates st = .err (.noCoordinates "No coordinates in response.") := by
  unfold getRouteDistance getRouteDuration getRouteCoordinates
  rw [hr]
  simp [featureSummary, hf, hsum, hg, jsTruthyNum]

/-- C6 witness: the concrete summaryless, geometryless capture makes all three
accessors throw, in both demo modes. -/
theorem accessors_unrecognized_shape_error_witness :
    (getRouteDistance true exampleGarbageState =
        .err (.unrecognizedShape "Captured response is neither Route nor Address.") ∧
      getRouteDuration true exampleGarbageState =
        .err (.couldNotExtractDuration "Could not extract duration from API response.") ∧
      getRouteCoordinates exampleGarbageState =
        .err (.noCoordinates "No coordinates in response.")) ∧
    (getRouteDistance false exampleGarbageState =
        .err (.unrecognizedShape "Captured response is neither Route nor Address.") ∧
      getRouteDuration false exampleGarbageState =
        .err (.couldNotExtractDuration "Could not extract duration from API response.") ∧
      getRouteCoordinates exampleGarbageState =
        .err (.noCoordinates "No coordinates in response.")) :=
  ⟨accessors_unrecognized_shape_error true exampleGarbageState _ _ rfl rfl rfl rfl,
   accessors_unrecognized_shape_error false exampleGarbageState _ _ rfl rfl rfl rfl⟩

/-- C9: `isRouteDisplayed()` is true exactly when a captured response is
stored, and it is false in the initial state. -/
theorem isRouteDisplayed_iff_captured (st : MapState) :
    (isRouteDisplayed st = true ↔ ∃ r, st.routeResponse = some r) ∧
    isRouteDisplayed MapState.initial = false := by
  constructor
  · simpa [isRouteDisplayed] using Option.isSome_iff_exists
  · rfl

/-- C9 witness: with a concrete capture stored, `isRouteDisplayed()` is true. -/
theorem isRouteDisplayed_iff_captured_witness :
    isRouteDisplayed exampleRouteState = true :=
  (isRouteDisplayed_iff_captured exampleRouteState).1.mpr ⟨_, rfl⟩

/-- C4: the `waitForRouteCalculation` predicate accepts a network response
exactly when the URL contains one of the fragments `directions`, `reverse`,
`pgeocode`, the status is 200, and the body parses to JSON whose `features`
field is a non-empty array; otherwise it returns false (the response is
ignored, not an error). -/
theorem routeResponsePredicate_iff (resp : NetResponse) :
    routeResponsePredicate resp = true ↔
      ((strContains resp.url "directions" = true ∨
        strContains resp.url "reverse" = true ∨
        strContains resp.url "pgeocode" = true) ∧
       resp.status = 200 ∧
       ∃ b fs, resp.body = some b ∧ b.features = some fs ∧ fs ≠ []) := by
  rcases resp with ⟨url, status, body⟩
  rcases body with _ | ⟨_ | fs⟩ <;>
    first
    | (simp [routeResponsePredicate, isTargetUrl, RouteResponse.mk.injEq]; tauto)
    | simp [routeResponsePredicate, isTargetUrl, RouteResponse.mk.injEq]

/-- C4 witness: a qualifying directions response is accepted. -/
theorem routeResponsePredicate_iff_witness :
    routeResponsePredicate
      { url := "https://example.com/v2/directions/json", status := 200,
        body := some { features := some [{ }] } } = true :=
  (routeResponsePredicate_iff _).mpr
    ⟨Or.inl (by decide), rfl, _, [{ }], rfl, rfl, by simp⟩

/-- C7: in `drawRouteOnMap()` and `clickDeliveryAndWaitForRoute()`, the stored
captured response is updated atomically: if the network wait resolves, the
field is overwritten with exactly the parsed body (and the method succeeds);
if the wait fails, the error propagates and the state is left unchanged. -/
theorem capture_assignment_atomic (v : Viewport) (st : MapState)
    (outcome : Except String RouteResponse) :
    (∀ body, outcome = .ok body →
        drawRouteOnMap (some v) st outcome = (.ok (), { st with routeResponse := some body }) ∧
        clickDeliveryAndWaitForRoute (some v) st outcome =
          (.ok (), { st with routeResponse := some body })) ∧
    (∀ e, outcome = .error e →
        drawRouteOnMap (some v) st outcome = (.error e, st) ∧
        clickDeliveryAndWaitForRoute (some v) st outcome = (.error e, st)) := by
  constructor
  · intro body hb
    subst hb
    exact ⟨rfl, rfl⟩
  · intro e he
    subst he
    exact ⟨rfl, rfl⟩

/-- C7 witness: at a concrete viewport and initial state, a resolved wait
stores exactly the body and a timed-out wait leaves the state unchanged. -/
theorem capture_assignment_atomic_witness :
    (drawRouteOnMap (some ⟨1280, 720⟩) MapState.initial (.ok { features := some [{ }] }) =
        (.ok (), { MapState.initial with routeResponse := some { features := some [{ }] } }) ∧
      clickDeliveryAndWaitForRoute (some ⟨1280, 720⟩) MapState.initial
          (.ok { features := some [{ }] }) =
        (.ok (), { MapState.initial with routeResponse := some { features := some [{ }] } })) ∧
    (drawRouteOnMap (some ⟨1280, 720⟩) MapState.initial
        (.error "Timeout 15000ms exceeded") = (.error "Timeout 15000ms exceeded", MapState.initial) ∧
      clickDeliveryAndWaitForRoute (some ⟨1280, 720⟩) MapState.initial
        (.error "Timeout 15000ms exceeded") = (.error "Timeout 15000ms exceeded", MapState.initial)) :=
  ⟨(capture_assignment_atomic ⟨1280, 720⟩ MapState.initial _).1 _ rfl,
   (capture_assignment_atomic ⟨1280, 720⟩ MapState.initial _).2 _ rfl⟩

/-- C8: for every viewport with positive width and height, the pickup click
point (35% width, 50% height) and the delivery click point (65% width,
50% height) lie strictly inside the viewport and differ from each other. -/
theorem click_points_strictly_inside (v : Viewport)
    (hw : 0 < v.width) (hh : 0 < v.height) :
    0 < (pickupClickPoint v).1 ∧ (pickupClickPoint v).1 < v.width ∧
    0 < (pickupClickPoint v).2 ∧ (pickupClickPoint v).2 < v.height ∧
    0 < (deliveryClickPoint v).1 ∧ (deliveryClickPoint v).1 < v.width ∧
    0 < (deliveryClickPoint v).2 ∧ (deliveryClickPoint v).2 < v.height ∧
    pickupClickPoint v ≠ deliveryClickPoint v := by
  simp only [pickupClickPoint, deliveryClickPoint]
  refine ⟨by nlinarith, by nlinarith, by nlinarith, by nlinarith,
          by nlinarith, by nlinarith, by nlinarith, by nlinarith, ?_⟩
  intro h
  rw [Prod.mk.injEq] at h
  have h1 := h.1
  nlinarith

/-- C8 witness: at the 1280x720 viewport, the two click points are strictly
inside the bounds and differ. -/
theorem click_points_strictly_inside_witness :
    0 < (pickupClickPoint ⟨1280, 720⟩).1 ∧ (pickupClickPoint ⟨1280, 720⟩).1 < (1280 : ℚ) ∧
    0 < (pickupClickPoint ⟨1280, 720⟩).2 ∧ (pickupClickPoint ⟨1280, 720⟩).2 < (720 : ℚ) ∧
    0 < (deliveryClickPoint ⟨1280, 720⟩).1 ∧ (deliveryClickPoint ⟨1280, 720⟩).1 < (1280 : ℚ) ∧
    0 < (deliveryClickPoint ⟨1280, 720⟩).2 ∧ (deliveryClickPoint ⟨1280, 720⟩).2 < (720 : ℚ) ∧
    pickupClickPoint ⟨1280, 720⟩ ≠ deliveryClickPoint ⟨1280, 720⟩ :=
  click_points_strictly_inside ⟨1280, 720⟩ (by norm_num) (by norm_num)

/-- C10: `ApiClient.getRoute` errors exactly when the response status is not
OK (outside 200-299), the error message contains the status code, an OK
response yields the parsed JSON body, and an unset profile POSTs against
the driving-car profile URL. -/
theorem getRoute_contract {β : Type} (req : RouteRequest) (resp : ApiHttpResponse β) :
    ((∃ e, getRoute req resp = .error e) ↔ apiResponseOk resp.status = false) ∧
    (∀ e, getRoute req resp = .error e → strContains e (toString resp.status) = true) ∧
    (apiResponseOk resp.status = true → getRoute req resp = .ok resp.json) ∧
    (req.profile = none →
      getRouteUrl req = "https://openrouteservice.org/v2/directions/driving-car/json") := by
  refine ⟨?_, ?_, ?_, ?_⟩
  · by_cases h : apiResponseOk resp.status <;> simp [getRoute, h]
  · intro e he
    by_cases h : apiResponseOk resp.status
    · simp [getRoute, h] at he
    · simp [getRoute, h] at he
      subst he
      simp only [strContains, decide_eq_true_eq]
      exact ⟨"OpenRouteService API returned ".toList, (": " ++ resp.text).toList,
        by simp [String.toList]⟩
  · intro h
    simp [getRoute, h]
  · intro h
    simp [getRouteUrl, effectiveProfileString, h]

/-- C10 witness: a 404 response yields an error whose message contains `404`,
a 200 response returns the parsed body, and the profile defaults to
driving-car in the URL. -/
theorem getRoute_contract_witness :
    strContains "OpenRouteService API returned 404: Not Found" (toString (404 : Nat)) = true ∧
    getRoute exampleRouteRequest
        ({ status := 200, text := "", json := 7 } : ApiHttpResponse Nat) = .ok 7 ∧
    getRouteUrl exampleRouteRequest =
      "https://openrouteservice.org/v2/directions/driving-car/json" :=
  ⟨(getRoute_contract exampleRouteRequest
      ({ status := 404, text := "Not Found", json := 7 } : ApiHttpResponse Nat)).2.1
      "OpenRouteService API returned 404: Not Found" rfl,
   (getRoute_contract exampleRouteRequest
      ({ status := 200, text := "", json := 7 } : ApiHttpResponse Nat)).2.2.1 rfl,
   (getRoute_contract exampleRouteRequest
      ({ status := 200, text := "", json := 7 } : ApiHttpResponse Nat)).2.2.2 rfl⟩

end Hora
